import Mathlib

/-!
Verification of the dewey.beer domain-math engines against their
natural-language specification.

The engines live in `src/components/ServiceCard.tsx` (brewing math),
`src/pages/tools/PizzaCalculator.tsx` (dough math and schedule), and the
tap-display helper file (swatch mapping).  Each definition below is a
shallow embedding of the corresponding JavaScript function.  JavaScript
numbers are modelled as exact rationals where the source only uses field
arithmetic and comparisons, and as real numbers where the source calls
`Math.exp`, `Math.pow` with fractional exponents, or `Math.PI`.  A
JavaScript division whose denominator is zero produces a non-finite
number (`Infinity` or `NaN`); such results are modelled as `none` in an
`Option`-valued embedding.  The JavaScript `||` defaulting operator
treats `0` as absent (falsy), which is modelled explicitly.
-/

/-! ## Data model (from `ServiceCard.tsx` interfaces) -/

/-- interface Fermentable: id, name, weightLb, ppg, lovibond.  The numeric
type is a parameter so the same record shape serves the rational-valued
Gravity Engine and the real-valued Color Engine. -/
structure Fermentable (α : Type) where
  id : String
  name : String
  weightLb : α
  ppg : α
  lovibond : α

/-- Usage kind of a hop addition: boil, whirlpool, or dry. -/
inductive HopType where
  | boil : HopType
  | whirlpool : HopType
  | dry : HopType
deriving DecidableEq

/-- interface HopAddition: weight in ounces, alpha acid percent, boil time
in minutes, usage kind, and an optional whirlpool temperature. -/
structure HopAddition where
  id : String
  name : String
  weightOz : ℝ
  alphaAcid : ℝ
  timeMin : ℝ
  hopType : HopType
  whirlpoolTempF : Option ℝ

/-- interface WaterProfile: six ion concentrations in ppm. -/
@[ext] structure WaterProfile where
  ca : ℚ
  mg : ℚ
  na : ℚ
  cl : ℚ
  so4 : ℚ
  hco3 : ℚ
deriving DecidableEq

/-- interface SaltAdditions: six salt masses in grams. -/
structure SaltAdditions where
  gypsum : ℚ
  cacl2 : ℚ
  epsom : ℚ
  salt : ℚ
  bakingSoda : ℚ
  chalk : ℚ

/-- The fields of interface RecipeContext consumed by the gravity / ABV
derivation chain of the BrewMaster component. -/
structure RecipeContext where
  batchSizeGal : ℚ
  efficiency : ℚ
  grainBill : List (Fermentable ℚ)
  measuredOG : Option ℚ
  measuredFG : Option ℚ

/-- JavaScript `x || d` on an optional number: `undefined` and `0` are
falsy, any other number is returned unchanged. -/
def jsOrQ (v : Option ℚ) (d : ℚ) : ℚ :=
  match v with
  | none => d
  | some x => if x = 0 then d else x

/-! ## Gravity Engine (`calculateGravity`) -/

/-- Result record of `calculateGravity`: `{ og, points }`. -/
structure GravityResult where
  og : ℚ
  points : ℚ

/-- `grains.reduce((acc, grain) => acc + grain.weightLb * grain.ppg, 0)`. -/
def totalGrainPoints (grains : List (Fermentable ℚ)) : ℚ :=
  grains.foldl (fun acc grain => acc + grain.weightLb * grain.ppg) 0

/-- `calculateGravity` from `ServiceCard.tsx`: realized points are total
points times efficiency over 100; points per gallon divide by volume when
it is positive and default to 0 otherwise; og = 1 + points/1000. -/
def calculateGravity (grains : List (Fermentable ℚ)) (efficiency volume : ℚ) :
    GravityResult :=
  let totalPoints := totalGrainPoints grains
  let potentialPoints := totalPoints * (efficiency / 100)
  let pointsPerGal := if volume > 0 then potentialPoints / volume else 0
  { og := 1 + pointsPerGal / 1000, points := pointsPerGal }

/-- `calculateABV`: `(og - fg) * 131.25`. -/
def calculateABV (og fg : ℚ) : ℚ :=
  (og - fg) * 131.25

/-- Original gravity as derived in the BrewMaster component. -/
def brewOG (r : RecipeContext) : ℚ :=
  (calculateGravity r.grainBill r.efficiency r.batchSizeGal).og

/-- `const fg = recipe.measuredFG || (1 + (og - 1) * 0.25)`. -/
def brewFG (r : RecipeContext) : ℚ :=
  jsOrQ r.measuredFG (1 + (brewOG r - 1) * 0.25)

/-- `const abv = calculateABV(og, fg)` in the BrewMaster component. -/
def brewABV (r : RecipeContext) : ℚ :=
  calculateABV (brewOG r) (brewFG r)

/-! ## Water Chemistry Engine (`calculateWaterChemistry`) -/

/-- `calculateWaterChemistry` from `ServiceCard.tsx`.  When the total
water volume is nonpositive the source profile is returned unchanged;
otherwise each ion gains `(constant * grams) / volume` from each salt
contributing to it. -/
def calculateWaterChemistry (source : WaterProfile) (salts : SaltAdditions)
    (totalWaterGal : ℚ) : WaterProfile :=
  if totalWaterGal ≤ 0 then source
  else
    let ppm := fun (val grams : ℚ) => val * grams / totalWaterGal
    { ca := source.ca + ppm 60 salts.gypsum + ppm 72 salts.cacl2 + ppm 105 salts.chalk
      mg := source.mg + ppm 24 salts.epsom
      na := source.na + ppm 104 salts.salt + ppm 72 salts.bakingSoda
      cl := source.cl + ppm 128 salts.cacl2 + ppm 160 salts.salt
      so4 := source.so4 + ppm 147 salts.gypsum + ppm 98 salts.epsom
      hco3 := source.hco3 + ppm 184 salts.bakingSoda + ppm 158 salts.chalk }

/-- Pointwise doubling of every salt mass. -/
def doubleSalts (s : SaltAdditions) : SaltAdditions :=
  { gypsum := 2 * s.gypsum
    cacl2 := 2 * s.cacl2
    epsom := 2 * s.epsom
    salt := 2 * s.salt
    bakingSoda := 2 * s.bakingSoda
    chalk := 2 * s.chalk }

/-! ## Keg Balance Engine (serving-pressure polynomial) -/

/-- The `servingPSI` expression of the BrewMaster component:
`Math.max(0, -16.6999 - 0.0101059*T + 0.00116512*T^2 + 0.173354*T*V
+ 4.24267*V - 0.0684226*V^2)`. -/
def servingPSI (tempF co2Vol : ℚ) : ℚ :=
  max 0 (-16.6999 - 0.0101059 * tempF + 0.00116512 * tempF ^ 2
    + 0.173354 * tempF * co2Vol + 4.24267 * co2Vol - 0.0684226 * co2Vol ^ 2)

/-! ## Color swatch mapping (`srmToColor` from the tap-display helper) -/

/-- `srmToColor`: ascending threshold chain, first match wins; the final
`return` after the `srm > 30` branch is an unreachable fallback in the
source, kept for fidelity. -/
def srmToColor (srm : ℚ) : String :=
  if srm ≤ 2 then "#F8F753"
  else if srm ≤ 3 then "#F6F513"
  else if srm ≤ 4 then "#ECE61A"
  else if srm ≤ 6 then "#D5BC26"
  else if srm ≤ 9 then "#BF923B"
  else if srm ≤ 12 then "#BF813A"
  else if srm ≤ 15 then "#BC6733"
  else if srm ≤ 20 then "#8D4C32"
  else if srm ≤ 24 then "#5D341A"
  else if srm ≤ 30 then "#261716"
  else if srm > 30 then "#030403"
  else "#F8F753"

/-- The eleven swatches of `srmToColor` in threshold order. -/
def srmSwatches : List String :=
  ["#F8F753", "#F6F513", "#ECE61A", "#D5BC26", "#BF923B", "#BF813A",
   "#BC6733", "#8D4C32", "#5D341A", "#261716", "#030403"]

/-- Index of the band `srmToColor` assigns: position of the first
threshold of 2, 3, 4, 6, 9, 12, 15, 20, 24, 30 at or above the value,
and 10 past the last. -/
def srmBandIndex (srm : ℚ) : ℕ :=
  if srm ≤ 2 then 0
  else if srm ≤ 3 then 1
  else if srm ≤ 4 then 2
  else if srm ≤ 6 then 3
  else if srm ≤ 9 then 4
  else if srm ≤ 12 then 5
  else if srm ≤ 15 then 6
  else if srm ≤ 20 then 7
  else if srm ≤ 24 then 8
  else if srm ≤ 30 then 9
  else 10

/-! ## Bitterness Engine (`calculateIBU`) and Color Engine (`calculateSRM`)

These use `Math.exp` and fractional `Math.pow`, so they are modelled over
the reals.  A JavaScript division with denominator 0 yields `Infinity` or
`NaN`, and `Math.pow` of a negative base with a fractional exponent
yields `NaN`; both non-finite outcomes are modelled as `none`. -/

/-- JavaScript division as a partial operation: `none` models the
non-finite result (`Infinity` or `NaN`) of dividing by zero. -/
noncomputable def jsDiv (a b : ℝ) : Option ℝ :=
  if b = 0 then none else some (a / b)

/-- JavaScript `x || d` on an optional real: `undefined` and `0` are
falsy. -/
noncomputable def jsOrR (v : Option ℝ) (d : ℝ) : ℝ :=
  match v with
  | none => d
  | some x => if x = 0 then d else x

/-- The utilization assigned to one hop addition inside `calculateIBU`:
bigness factor times boil-time factor, overridden for whirlpool
additions by the fixed 20-minute factor times the temperature factor
(temperature defaulted through JavaScript `||`). -/
noncomputable def hopUtilization (hop : HopAddition) (og : ℝ) : ℝ :=
  let bignessFactor := 1.65 * Real.rpow 0.000125 (og - 1)
  let boilTimeFactor := (1 - Real.exp (-0.04 * hop.timeMin)) / 4.15
  if hop.hopType = HopType.whirlpool then
    let temp := jsOrR hop.whirlpoolTempF 200
    let tempFactor : ℝ := if temp > 180 then 0.5 else if temp > 160 then 0.2 else 0.05
    bignessFactor * ((1 - Real.exp (-0.04 * 20)) / 4.15) * tempFactor
  else
    bignessFactor * boilTimeFactor

/-- The contribution of one hop addition inside the `hops.forEach` loop:
dry additions return before computing anything; others divide
alpha-acid-units times utilization times 74.9 by the volume. -/
noncomputable def hopIBU (hop : HopAddition) (og volume : ℝ) : Option ℝ :=
  if hop.hopType = HopType.dry then some 0
  else jsDiv (hop.alphaAcid * hop.weightOz * hopUtilization hop og * 74.9) volume

/-- `calculateIBU` from `ServiceCard.tsx`: `totalIBU` accumulates each
contribution of each addition; a non-finite contribution poisons the JavaScript
sum, modelled by `Option` threading. -/
noncomputable def calculateIBU (hops : List HopAddition) (og volume : ℝ) : Option ℝ :=
  hops.foldl
    (fun acc hop => acc.bind fun a => (hopIBU hop og volume).map fun i => a + i)
    (some 0)

/-- `grains.reduce((acc, g) => acc + g.weightLb * g.lovibond, 0)`. -/
noncomputable def totalMCUPoints (grains : List (Fermentable ℝ)) : ℝ :=
  grains.foldl (fun acc g => acc + g.weightLb * g.lovibond) 0

/-- `calculateSRM` from `ServiceCard.tsx`: malt color units are the
lovibond-weighted grain mass divided by the volume with no guard, then
`1.4922 * mcu ^ 0.6859`.  Division by zero volume and `Math.pow` of a
negative base are non-finite, hence `none`. -/
noncomputable def calculateSRM (grains : List (Fermentable ℝ)) (volume : ℝ) :
    Option ℝ :=
  (jsDiv (totalMCUPoints grains) volume).bind fun mcu =>
    if mcu < 0 then none else some (1.4922 * Real.rpow mcu 0.6859)

/-! ## Dough Formulation Engine (`PizzaCalculator.tsx`) -/

/-- A dough style record (`DoughStyle` in `PizzaCalculator.tsx`),
flattened: thickness factor, hydration range and default, default
percentages, fermentation bounds, and balling lead time in hours. -/
structure DoughStyle where
  tf : ℚ
  hydrationMin : ℚ
  hydrationMax : ℚ
  hydrationDefault : ℚ
  saltDefault : ℚ
  oilDefault : ℚ
  sugarDefault : ℚ
  yeastDefault : ℚ
  roomMin : ℚ
  roomMax : ℚ
  roomDefault : ℚ
  coldMin : ℚ
  coldMax : ℚ
  coldDefault : ℚ
  ballingTime : ℚ

/-- The `ny_street` style from the `STYLES` table. -/
def nyStreetStyle : DoughStyle :=
  { tf := 0.085
    hydrationMin := 58, hydrationMax := 65, hydrationDefault := 62
    saltDefault := 2.5, oilDefault := 1.5, sugarDefault := 2.0
    yeastDefault := 0.5
    roomMin := 2, roomMax := 6, roomDefault := 3
    coldMin := 24, coldMax := 72, coldDefault := 48
    ballingTime := 4 }

/-- Total dough mass in grams: `area = Math.PI * (diameter/2)^2`, single
dough weight in ounces is `area * tf`, converted to grams via `28.3495`,
times the pan count. -/
noncomputable def totalDoughWeightG (diameter tf count : ℝ) : ℝ :=
  let radius := diameter / 2
  let area := Real.pi * radius ^ 2
  let singleDoughWeightOz := area * tf
  let singleDoughWeightG := singleDoughWeightOz * 28.3495
  singleDoughWeightG * count

/-- `flourG = totalDoughWeightG / (totalPercent / 100)` with
`totalPercent = 100 + hydration + salt + oil + sugar + yeast`. -/
noncomputable def flourMassG (totalG hydration salt oil sugar yeast : ℝ) : ℝ :=
  let totalPercent := 100 + hydration + salt + oil + sugar + yeast
  totalG / (totalPercent / 100)

/-- The displayed `ingredients` record: whole-gram `Math.round` masses,
except yeast which keeps one decimal place. -/
structure PizzaIngredients where
  flour : ℤ
  water : ℤ
  salt : ℤ
  oil : ℤ
  sugar : ℤ
  yeast : ℝ

/-- The `ingredients` object computed in `PizzaCalculator.tsx`. -/
noncomputable def pizzaIngredients (flourG hydration salt oil sugar yeast : ℝ) :
    PizzaIngredients :=
  { flour := round flourG
    water := round (flourG * (hydration / 100))
    salt := round (flourG * (salt / 100))
    oil := round (flourG * (oil / 100))
    sugar := round (flourG * (sugar / 100))
    yeast := (round (flourG * (yeast / 100) * 10) : ℤ) / 10 }

/-- The auto-adjust-hydration effect body (manual-mode early `return`
excluded): base hydration plus 0.5 points per 12 hours of cold excess
plus 0.25 points per hour of room excess, clamped into the style range
and rounded to one decimal via `Math.round(x * 10) / 10`. -/
def autoHydration (style : DoughStyle) (coldFermentHours roomTempHours : ℚ) : ℚ :=
  let base := style.hydrationDefault
  let coldDiff := max 0 (coldFermentHours - style.coldMin)
  let withCold := base + coldDiff / 12 * 0.5
  let roomDiff := max 0 (roomTempHours - style.roomMin)
  let withRoom := withCold + roomDiff * 0.25
  let clamped := min style.hydrationMax (max style.hydrationMin withRoom)
  (round (clamped * 10) : ℤ) / 10

/-- The whole effect including the `if (customMode) return;` guard: in
manual mode the current hydration state is left untouched. -/
def hydrationAfterAutoEffect (customMode : Bool) (style : DoughStyle)
    (coldFermentHours roomTempHours currentHydration : ℚ) : ℚ :=
  if customMode then currentHydration
  else autoHydration style coldFermentHours roomTempHours

/-! ## Fermentation Schedule Engine (`PizzaCalculator.tsx` timeline) -/

/-- The timeline triple (ball, cold-ferment start, mix) in epoch
milliseconds: sequential subtraction of hour counts converted via
`* 60 * 60 * 1000` from the bake time. -/
def pizzaSchedule (bakeMs ballingTimeH coldFermentHours roomTempHours : ℚ) :
    ℚ × ℚ × ℚ :=
  let ballMs := bakeMs - ballingTimeH * 60 * 60 * 1000
  let coldStartMs := ballMs - coldFermentHours * 60 * 60 * 1000
  let mixMs := coldStartMs - roomTempHours * 60 * 60 * 1000
  (ballMs, coldStartMs, mixMs)

/-! ## Specification-side definitions and concrete sample inputs -/

/-- Per-addition bitterness contribution exactly as the specification
words it: dry additions contribute 0; boil additions use the recorded
minutes; whirlpool additions use a fixed 20-minute factor scaled by the
temperature factor, where the temperature is the recorded value and 200
only when the field is absent. -/
noncomputable def specHopContributionClaim (h : HopAddition) (og volume : ℝ) : ℝ :=
  match h.hopType with
  | HopType.dry => 0
  | HopType.boil =>
      h.alphaAcid * h.weightOz
        * (1.65 * Real.rpow 0.000125 (og - 1)
            * ((1 - Real.exp (-0.04 * h.timeMin)) / 4.15)) * 74.9 / volume
  | HopType.whirlpool =>
      let temp : ℝ :=
        match h.whirlpoolTempF with
        | none => 200
        | some t => t
      let tempFactor : ℝ :=
        if temp > 180 then 0.5 else if temp > 160 then 0.2 else 0.05
      h.alphaAcid * h.weightOz
        * (1.65 * Real.rpow 0.000125 (og - 1)
            * ((1 - Real.exp (-0.04 * 20)) / 4.15) * tempFactor) * 74.9 / volume

/-- The amended per-addition contribution: identical to the claim except
that a recorded whirlpool temperature of 0 is also replaced by the
200 degree default, matching the JavaScript falsy `||`. -/
noncomputable def specHopContributionAmended (h : HopAddition) (og volume : ℝ) : ℝ :=
  match h.hopType with
  | HopType.dry => 0
  | HopType.boil =>
      h.alphaAcid * h.weightOz
        * (1.65 * Real.rpow 0.000125 (og - 1)
            * ((1 - Real.exp (-0.04 * h.timeMin)) / 4.15)) * 74.9 / volume
  | HopType.whirlpool =>
      let temp : ℝ :=
        match h.whirlpoolTempF with
        | none => 200
        | some t => if t = 0 then 200 else t
      let tempFactor : ℝ :=
        if temp > 180 then 0.5 else if temp > 160 then 0.2 else 0.05
      h.alphaAcid * h.weightOz
        * (1.65 * Real.rpow 0.000125 (og - 1)
            * ((1 - Real.exp (-0.04 * 20)) / 4.15) * tempFactor) * 74.9 / volume

/-- The total value delivered by `hopIBU` when the volume is nonzero. -/
noncomputable def hopIBUval (hop : HopAddition) (og volume : ℝ) : ℝ :=
  if hop.hopType = HopType.dry then 0
  else hop.alphaAcid * hop.weightOz * hopUtilization hop og * 74.9 / volume

/-- The default 2-Row grain of `DEFAULT_RECIPE`, over the rationals. -/
def sampleGrains : List (Fermentable ℚ) :=
  [{ id := "1", name := "2-Row", weightLb := 10, ppg := 37, lovibond := 1.8 },
   { id := "2", name := "Crystal 40", weightLb := 0.5, ppg := 34, lovibond := 40 }]

/-- The default 2-Row grain of `DEFAULT_RECIPE`, over the reals. -/
noncomputable def sampleGrainsR : List (Fermentable ℝ) :=
  [{ id := "1", name := "2-Row", weightLb := 10, ppg := 37, lovibond := 1.8 }]

/-- A plain 60-minute boil addition (the default Citra addition). -/
noncomputable def boilHopSample : HopAddition :=
  { id := "1", name := "Citra", weightOz := 1, alphaAcid := 12, timeMin := 60
    hopType := HopType.boil, whirlpoolTempF := none }

/-- A whirlpool addition whose recorded temperature is 0 degrees F. -/
noncomputable def whirlpoolHopZeroTemp : HopAddition :=
  { id := "2", name := "Mosaic", weightOz := 1, alphaAcid := 10, timeMin := 0
    hopType := HopType.whirlpool, whirlpoolTempF := some 0 }

/-- The default soft source water of `DEFAULT_RECIPE`. -/
def sampleWater : WaterProfile :=
  { ca := 5, mg := 2, na := 8, cl := 10, so4 := 10, hco3 := 15 }

/-- A nonzero salt addition set used to exercise the chemistry engine. -/
def sampleSalts : SaltAdditions :=
  { gypsum := 1, cacl2 := 2, epsom := 3, salt := 4, bakingSoda := 5, chalk := 6 }

/-- A recipe with the default grain bill and no measured gravities. -/
def sampleRecipe : RecipeContext :=
  { batchSizeGal := 5.5, efficiency := 72, grainBill := sampleGrains
    measuredOG := none, measuredFG := none }

/-! ## Helper lemmas -/

/-- The grain-points fold is the sum of per-grain products. -/
theorem totalGrainPoints_eq_sum (grains : List (Fermentable ℚ)) :
    totalGrainPoints grains = (grains.map (fun g => g.weightLb * g.ppg)).sum := by
  suffices h : ∀ (l : List (Fermentable ℚ)) (a : ℚ),
      l.foldl (fun acc g => acc + g.weightLb * g.ppg) a
        = a + (l.map (fun g => g.weightLb * g.ppg)).sum by
    simpa [totalGrainPoints] using h grains 0
  intro l
  induction l with
  | nil => intro a; simp
  | cons x xs ih => intro a; simp [ih, add_assoc]

/-- With a nonzero volume, each hop contributes the plain value. -/
theorem hopIBU_eq_some (hop : HopAddition) (og volume : ℝ) (hv : volume ≠ 0) :
    hopIBU hop og volume = some (hopIBUval hop og volume) := by
  by_cases hdry : hop.hopType = HopType.dry
  · simp [hopIBU, hopIBUval, hdry]
  · simp [hopIBU, hopIBUval, hdry, jsDiv, hv]

/-- With a nonzero volume, the whole fold collapses to a plain sum. -/
theorem calculateIBU_eq_some_sum (hops : List HopAddition) (og volume : ℝ)
    (hv : volume ≠ 0) :
    calculateIBU hops og volume
      = some ((hops.map (fun h => hopIBUval h og volume)).sum) := by
  suffices h : ∀ (l : List HopAddition) (a : ℝ),
      l.foldl
        (fun acc hop => acc.bind fun x => (hopIBU hop og volume).map fun i => x + i)
        (some a)
        = some (a + (l.map (fun h => hopIBUval h og volume)).sum) by
    simpa [calculateIBU] using h hops 0
  intro l
  induction l with
  | nil => intro a; simp
  | cons x xs ih => intro a; simp [hopIBU_eq_some x og volume hv, ih, add_assoc]

/-- The per-hop fold value agrees with the amended specification formula. -/
theorem hopIBUval_eq_amended (hop : HopAddition) (og volume : ℝ) :
    hopIBUval hop og volume = specHopContributionAmended hop og volume := by
  cases hty : hop.hopType with
  | dry => simp [hopIBUval, specHopContributionAmended, hty]
  | boil =>
      simp [hopIBUval, specHopContributionAmended, hopUtilization, hty]
  | whirlpool =>
      cases htemp : hop.whirlpoolTempF with
      | none =>
          simp [hopIBUval, specHopContributionAmended, hopUtilization,
            jsOrR, hty, htemp]
      | some t =>
          simp [hopIBUval, specHopContributionAmended, hopUtilization,
            jsOrR, hty, htemp]

/-! ## Claim theorems -/

/-- C2: the Gravity Engine returns pointsPerGallon equal to the
weight-times-ppg sum, scaled by efficiency/100 and divided by the volume
when the volume is positive, and 0 when the volume is nonpositive, with
originalGravity = 1 + pointsPerGallon/1000 in both cases. -/
theorem gravity_engine_correct (grains : List (Fermentable ℚ)) (e v : ℚ) :
    (0 < v → (calculateGravity grains e v).points
        = (grains.map (fun g => g.weightLb * g.ppg)).sum * (e / 100) / v) ∧
    (v ≤ 0 → (calculateGravity grains e v).points = 0) ∧
    (calculateGravity grains e v).og
      = 1 + (calculateGravity grains e v).points / 1000 := by
  refine ⟨fun hv => ?_, fun hv => ?_, rfl⟩
  · simp [calculateGravity, totalGrainPoints_eq_sum, hv]
  · simp [calculateGravity, not_lt.mpr hv]

/-- Witness for C2 at the default grain bill, 72 percent efficiency and
5.5 gallons. -/
theorem gravity_engine_correct_witness :
    (0 : ℚ) < 5.5 ∧ (calculateGravity sampleGrains 72 5.5).points = 13932 / 275 := by
  refine ⟨by norm_num, ?_⟩
  rw [(gravity_engine_correct sampleGrains 72 5.5).1 (by norm_num)]
  norm_num [sampleGrains]

/-- C7: the fermentation schedule works backward from the bake time by
sequential millisecond subtraction; with a 4 hour balling lead, 48 hour
cold ferment and 3 hour room rest the milestones sit 4, 52 and 55 hours
before the bake time, and the milestones are in chronological order for
positive durations. -/
theorem fermentation_schedule_correct (T b c r : ℚ) :
    (pizzaSchedule T b c r).1 = T - b * 3600000 ∧
    (pizzaSchedule T b c r).2.1 = T - (b + c) * 3600000 ∧
    (pizzaSchedule T b c r).2.2 = T - (b + c + r) * 3600000 ∧
    (pizzaSchedule T 4 48 3).1 = T - 4 * 3600000 ∧
    (pizzaSchedule T 4 48 3).2.1 = T - 52 * 3600000 ∧
    (pizzaSchedule T 4 48 3).2.2 = T - 55 * 3600000 ∧
    (0 < b → 0 < c → 0 < r →
      (pizzaSchedule T b c r).2.2 < (pizzaSchedule T b c r).2.1 ∧
      (pizzaSchedule T b c r).2.1 < (pizzaSchedule T b c r).1 ∧
      (pizzaSchedule T b c r).1 < T) := by
  refine ⟨?_, ?_, ?_, ?_, ?_, ?_, fun hb hc hr => ⟨?_, ?_, ?_⟩⟩ <;>
    simp [pizzaSchedule] <;> nlinarith

/-- Witness for C7 at bake time 0 with the 4 / 48 / 3 hour durations. -/
theorem fermentation_schedule_correct_witness :
    (0 : ℚ) < 4 ∧
    (pizzaSchedule 0 4 48 3).2.2 < (pizzaSchedule 0 4 48 3).2.1 := by
  exact ⟨by norm_num,
    ((fermentation_schedule_correct 0 4 48 3).2.2.2.2.2.2
      (by norm_num) (by norm_num) (by norm_num)).1⟩

/-- C10: when no final gravity is measured, the final gravity estimate is
1 + (og - 1) * 0.25 and exactly this estimate feeds the ABV derivation. -/
theorem fg_estimate_correct (r : RecipeContext) (h : r.measuredFG = none) :
    brewFG r = 1 + (brewOG r - 1) * 0.25 ∧
    brewABV r = calculateABV (brewOG r) (1 + (brewOG r - 1) * 0.25) := by
  constructor
  · simp [brewFG, jsOrQ, h]
  · simp [brewABV, brewFG, jsOrQ, h]

/-- Witness for C10 at the sample recipe, which has no measured FG. -/
theorem fg_estimate_correct_witness :
    brewABV sampleRecipe
      = calculateABV (brewOG sampleRecipe) (1 + (brewOG sampleRecipe - 1) * 0.25) :=
  (fg_estimate_correct sampleRecipe rfl).2

/-- C4: the Water Chemistry Engine returns the source profile unchanged
for nonpositive volume; for positive volume each ion is the source value
plus the sum of (constant times grams) over the contributing salts,
divided by the volume, with the documented constants; and doubling every
salt mass doubles every contribution above the source baseline. -/
theorem water_chemistry_correct (src : WaterProfile) (salts : SaltAdditions) (v : ℚ) :
    (v ≤ 0 → calculateWaterChemistry src salts v = src) ∧
    (0 < v →
      (calculateWaterChemistry src salts v).ca
          = src.ca + (60 * salts.gypsum + 72 * salts.cacl2 + 105 * salts.chalk) / v ∧
      (calculateWaterChemistry src salts v).mg
          = src.mg + (24 * salts.epsom) / v ∧
      (calculateWaterChemistry src salts v).na
          = src.na + (104 * salts.salt + 72 * salts.bakingSoda) / v ∧
      (calculateWaterChemistry src salts v).cl
          = src.cl + (128 * salts.cacl2 + 160 * salts.salt) / v ∧
      (calculateWaterChemistry src salts v).so4
          = src.so4 + (147 * salts.gypsum + 98 * salts.epsom) / v ∧
      (calculateWaterChemistry src salts v).hco3
          = src.hco3 + (184 * salts.bakingSoda + 158 * salts.chalk) / v) ∧
    (0 < v →
      (calculateWaterChemistry src (doubleSalts salts) v).ca - src.ca
          = 2 * ((calculateWaterChemistry src salts v).ca - src.ca) ∧
      (calculateWaterChemistry src (doubleSalts salts) v).mg - src.mg
          = 2 * ((calculateWaterChemistry src salts v).mg - src.mg) ∧
      (calculateWaterChemistry src (doubleSalts salts) v).na - src.na
          = 2 * ((calculateWaterChemistry src salts v).na - src.na) ∧
      (calculateWaterChemistry src (doubleSalts salts) v).cl - src.cl
          = 2 * ((calculateWaterChemistry src salts v).cl - src.cl) ∧
      (calculateWaterChemistry src (doubleSalts salts) v).so4 - src.so4
          = 2 * ((calculateWaterChemistry src salts v).so4 - src.so4) ∧
      (calculateWaterChemistry src (doubleSalts salts) v).hco3 - src.hco3
          = 2 * ((calculateWaterChemistry src salts v).hco3 - src.hco3)) := by
  refine ⟨fun hv => ?_, fun hv => ?_, fun hv => ?_⟩
  · simp [calculateWaterChemistry, hv]
  · have hv' : ¬ v ≤ 0 := not_le.mpr hv
    refine ⟨?_, ?_, ?_, ?_, ?_, ?_⟩ <;>
      simp [calculateWaterChemistry, hv'] <;> ring
  · have hv' : ¬ v ≤ 0 := not_le.mpr hv
    refine ⟨?_, ?_, ?_, ?_, ?_, ?_⟩ <;>
      simp [calculateWaterChemistry, doubleSalts, hv'] <;> ring

/-- Witness for C4 at the sample water, sample salts and 7 gallons. -/
theorem water_chemistry_correct_witness :
    calculateWaterChemistry sampleWater sampleSalts 0 = sampleWater ∧
    (calculateWaterChemistry sampleWater sampleSalts 7).ca
      = sampleWater.ca + (60 * 1 + 72 * 2 + 105 * 6) / 7 := by
  constructor
  · exact (water_chemistry_correct sampleWater sampleSalts 0).1 le_rfl
  · have h := ((water_chemistry_correct sampleWater sampleSalts 7).2.1 (by norm_num)).1
    rw [h]
    norm_num [sampleSalts]

/-- C5: total dough mass is pi times the squared half-diameter times the
thickness factor times 28.3495 times the count; flour mass divides the
total by (100 + the percentage sum)/100; and each displayed ingredient is
the flour mass times its percentage over 100 rounded to whole grams,
except yeast which is rounded to one decimal place. -/
theorem dough_formulation_correct
    (d tf n hy sa oi su ye fl : ℝ) :
    totalDoughWeightG d tf n = Real.pi * (d / 2) ^ 2 * tf * 28.3495 * n ∧
    flourMassG (totalDoughWeightG d tf n) hy sa oi su ye
      = totalDoughWeightG d tf n / ((100 + hy + sa + oi + su + ye) / 100) ∧
    (pizzaIngredients fl hy sa oi su ye).flour = round fl ∧
    (pizzaIngredients fl hy sa oi su ye).water = round (fl * (hy / 100)) ∧
    (pizzaIngredients fl hy sa oi su ye).salt = round (fl * (sa / 100)) ∧
    (pizzaIngredients fl hy sa oi su ye).oil = round (fl * (oi / 100)) ∧
    (pizzaIngredients fl hy sa oi su ye).sugar = round (fl * (su / 100)) ∧
    (pizzaIngredients fl hy sa oi su ye).yeast
      = (round (fl * (ye / 100) * 10) : ℤ) / 10 := by
  refine ⟨?_, rfl, rfl, rfl, rfl, rfl, rfl, rfl⟩
  simp only [totalDoughWeightG]

/-- C6 counterexample: with the ny_street style (default 62, coldMin 24,
roomMin 2), cold = 48 h and room = 3 h, the auto-hydration effect stores
63.3, not 63.25: the pre-clamp value 63.25 is rounded to one decimal. -/
theorem auto_hydration_example_counterexample :
    hydrationAfterAutoEffect false nyStreetStyle 48 3 62 = 63.3 ∧
    hydrationAfterAutoEffect false nyStreetStyle 48 3 62 ≠ 63.25 := by
  have h : hydrationAfterAutoEffect false nyStreetStyle 48 3 62 = 63.3 := by
    norm_num [hydrationAfterAutoEffect, autoHydration, nyStreetStyle,
      round_eq, max_def, min_def]
  exact ⟨h, by rw [h]; norm_num⟩

/-- C6 amended: whenever manual mode is off, the stored hydration equals
the style default plus 0.5 points per 12 hours of cold excess plus 0.25
points per hour of room excess (excesses floored at 0), clamped into the
style range and rounded to one decimal place; in manual mode the current
value is kept; the 62 / coldMin 24 / roomMin 2 example with cold 48 and
room 3 yields 63.3 (the pre-rounding value 63.25 rounds up). -/
theorem auto_hydration_amended :
    (∀ style c r h, hydrationAfterAutoEffect true style c r h = h) ∧
    (∀ (style : DoughStyle) (c r h : ℚ),
      hydrationAfterAutoEffect false style c r h
        = (round ((min style.hydrationMax (max style.hydrationMin
            (style.hydrationDefault + max 0 (c - style.coldMin) / 12 * 0.5
              + max 0 (r - style.roomMin) * 0.25))) * 10) : ℤ) / 10) ∧
    hydrationAfterAutoEffect false nyStreetStyle 48 3 62 = 63.3 := by
  refine ⟨fun style c r h => rfl, fun style c r h => rfl, ?_⟩
  norm_num [hydrationAfterAutoEffect, autoHydration, nyStreetStyle,
    round_eq, max_def, min_def]

/-- C8 counterexample: at 38 degrees F the serving-pressure polynomial is
not monotone over all carbonation volumes: it is lower at 100 volumes
than at 80. -/
theorem keg_monotonicity_counterexample :
    (80 : ℚ) < 100 ∧ servingPSI 38 100 < servingPSI 38 80 := by
  constructor <;> norm_num [servingPSI, max_def]

/-- C8 amended: at fixed nonnegative temperature, the required serving
pressure is monotone in the target carbonation volume over the physical
range up to 30 volumes of CO2, strictly whenever the pressure at the
lower volume is already positive; (unrestricted monotonicity fails, see
the counterexample). -/
theorem keg_monotonicity_amended (T V1 V2 : ℚ) (hT : 0 ≤ T) (h1 : 0 ≤ V1)
    (h12 : V1 < V2) (h2 : V2 ≤ 30) :
    servingPSI T V1 ≤ servingPSI T V2 ∧
    (0 < servingPSI T V1 → servingPSI T V1 < servingPSI T V2) := by
  have hlt : (-16.6999 - 0.0101059 * T + 0.00116512 * T ^ 2
        + 0.173354 * T * V1 + 4.24267 * V1 - 0.0684226 * V1 ^ 2)
      < (-16.6999 - 0.0101059 * T + 0.00116512 * T ^ 2
        + 0.173354 * T * V2 + 4.24267 * V2 - 0.0684226 * V2 ^ 2) := by
    have hK : 0 < 0.173354 * T + 4.24267 - 0.0684226 * (V1 + V2) := by linarith
    nlinarith [mul_pos (sub_pos.mpr h12) hK]
  simp only [servingPSI]
  constructor
  · exact max_le_max le_rfl hlt.le
  · intro hpos
    have hx : 0 < (-16.6999 - 0.0101059 * T + 0.00116512 * T ^ 2
        + 0.173354 * T * V1 + 4.24267 * V1 - 0.0684226 * V1 ^ 2) := by
      by_contra hle
      push_neg at hle
      rw [max_eq_left hle] at hpos
      exact lt_irrefl 0 hpos
    calc max 0 (-16.6999 - 0.0101059 * T + 0.00116512 * T ^ 2
          + 0.173354 * T * V1 + 4.24267 * V1 - 0.0684226 * V1 ^ 2)
        = -16.6999 - 0.0101059 * T + 0.00116512 * T ^ 2
          + 0.173354 * T * V1 + 4.24267 * V1 - 0.0684226 * V1 ^ 2 :=
          max_eq_right hx.le
    _ < -16.6999 - 0.0101059 * T + 0.00116512 * T ^ 2
          + 0.173354 * T * V2 + 4.24267 * V2 - 0.0684226 * V2 ^ 2 := hlt
    _ ≤ max 0 (-16.6999 - 0.0101059 * T + 0.00116512 * T ^ 2
          + 0.173354 * T * V2 + 4.24267 * V2 - 0.0684226 * V2 ^ 2) :=
          le_max_right _ _

/-- Witness for C8 amended at 38 degrees F between 2.4 and 2.5 volumes. -/
theorem keg_monotonicity_amended_witness :
    (0 : ℚ) ≤ 38 ∧ servingPSI 38 2.4 ≤ servingPSI 38 2.5 :=
  ⟨by norm_num,
    (keg_monotonicity_amended 38 2.4 2.5 (by norm_num) (by norm_num)
      (by norm_num) (by norm_num)).1⟩

/-- The band index never exceeds the final black band. -/
theorem srmBandIndex_le_ten (s : ℚ) : srmBandIndex s ≤ 10 := by
  simp only [srmBandIndex]
  split_ifs <;> norm_num

/-- The source mapping returns exactly the swatch at the band index. -/
theorem srmToColor_eq_getD (s : ℚ) :
    srmToColor s = srmSwatches.getD (srmBandIndex s) "#F8F753" := by
  by_cases h1 : s ≤ 2
  · simp [srmToColor, srmBandIndex, srmSwatches, h1]
  by_cases h2 : s ≤ 3
  · simp [srmToColor, srmBandIndex, srmSwatches, h1, h2]
  by_cases h3 : s ≤ 4
  · simp [srmToColor, srmBandIndex, srmSwatches, h1, h2, h3]
  by_cases h4 : s ≤ 6
  · simp [srmToColor, srmBandIndex, srmSwatches, h1, h2, h3, h4]
  by_cases h5 : s ≤ 9
  · simp [srmToColor, srmBandIndex, srmSwatches, h1, h2, h3, h4, h5]
  by_cases h6 : s ≤ 12
  · simp [srmToColor, srmBandIndex, srmSwatches, h1, h2, h3, h4, h5, h6]
  by_cases h7 : s ≤ 15
  · simp [srmToColor, srmBandIndex, srmSwatches, h1, h2, h3, h4, h5, h6, h7]
  by_cases h8 : s ≤ 20
  · simp [srmToColor, srmBandIndex, srmSwatches, h1, h2, h3, h4, h5, h6, h7, h8]
  by_cases h9 : s ≤ 24
  · simp [srmToColor, srmBandIndex, srmSwatches, h1, h2, h3, h4, h5, h6, h7, h8, h9]
  by_cases h10 : s ≤ 30
  · simp [srmToColor, srmBandIndex, srmSwatches,
      h1, h2, h3, h4, h5, h6, h7, h8, h9, h10]
  · simp [srmToColor, srmBandIndex, srmSwatches,
      h1, h2, h3, h4, h5, h6, h7, h8, h9, h10, not_le.mp h10]

/-- An if-then-else of naturals is bounded by a bound on both leaves. -/
theorem ite_le_nat {p : Prop} [Decidable p] {a b c : ℕ} (ha : a ≤ c) (hb : b ≤ c) :
    (if p then a else b) ≤ c := by
  split_ifs <;> assumption

set_option maxHeartbeats 1600000 in
/-- The band index is monotone in the color value. -/
theorem srmBandIndex_mono (v1 v2 : ℚ) (h : v1 < v2) :
    srmBandIndex v1 ≤ srmBandIndex v2 := by
  by_cases h1 : v2 ≤ 2
  · have hv : v1 ≤ 2 := by linarith
    have hb : srmBandIndex v2 = 0 := by simp [srmBandIndex, h1]
    rw [hb]
    simp [srmBandIndex, hv]
  by_cases h2 : v2 ≤ 3
  · have hv : v1 ≤ 3 := by linarith
    have hb : srmBandIndex v2 = 1 := by simp [srmBandIndex, h1, h2]
    rw [hb]
    simp [srmBandIndex, hv]
    try (repeat' apply ite_le_nat; all_goals norm_num)
  by_cases h3 : v2 ≤ 4
  · have hv : v1 ≤ 4 := by linarith
    have hb : srmBandIndex v2 = 2 := by simp [srmBandIndex, h1, h2, h3]
    rw [hb]
    simp [srmBandIndex, hv]
    try (repeat' apply ite_le_nat; all_goals norm_num)
  by_cases h4 : v2 ≤ 6
  · have hv : v1 ≤ 6 := by linarith
    have hb : srmBandIndex v2 = 3 := by simp [srmBandIndex, h1, h2, h3, h4]
    rw [hb]
    simp [srmBandIndex, hv]
    try (repeat' apply ite_le_nat; all_goals norm_num)
  by_cases h5 : v2 ≤ 9
  · have hv : v1 ≤ 9 := by linarith
    have hb : srmBandIndex v2 = 4 := by simp [srmBandIndex, h1, h2, h3, h4, h5]
    rw [hb]
    simp [srmBandIndex, hv]
    try (repeat' apply ite_le_nat; all_goals norm_num)
  by_cases h6 : v2 ≤ 12
  · have hv : v1 ≤ 12 := by linarith
    have hb : srmBandIndex v2 = 5 := by
      simp [srmBandIndex, h1, h2, h3, h4, h5, h6]
    rw [hb]
    simp [srmBandIndex, hv]
    try (repeat' apply ite_le_nat; all_goals norm_num)
  by_cases h7 : v2 ≤ 15
  · have hv : v1 ≤ 15 := by linarith
    have hb : srmBandIndex v2 = 6 := by
      simp [srmBandIndex, h1, h2, h3, h4, h5, h6, h7]
    rw [hb]
    simp [srmBandIndex, hv]
    try (repeat' apply ite_le_nat; all_goals norm_num)
  by_cases h8 : v2 ≤ 20
  · have hv : v1 ≤ 20 := by linarith
    have hb : srmBandIndex v2 = 7 := by
      simp [srmBandIndex, h1, h2, h3, h4, h5, h6, h7, h8]
    rw [hb]
    simp [srmBandIndex, hv]
    try (repeat' apply ite_le_nat; all_goals norm_num)
  by_cases h9 : v2 ≤ 24
  · have hv : v1 ≤ 24 := by linarith
    have hb : srmBandIndex v2 = 8 := by
      simp [srmBandIndex, h1, h2, h3, h4, h5, h6, h7, h8, h9]
    rw [hb]
    simp [srmBandIndex, hv]
    try (repeat' apply ite_le_nat; all_goals norm_num)
  by_cases h10 : v2 ≤ 30
  · have hv : v1 ≤ 30 := by linarith
    have hb : srmBandIndex v2 = 9 := by
      simp [srmBandIndex, h1, h2, h3, h4, h5, h6, h7, h8, h9, h10]
    rw [hb]
    simp [srmBandIndex, hv]
    try (repeat' apply ite_le_nat; all_goals norm_num)
  · have hb : srmBandIndex v2 = 10 := by
      simp [srmBandIndex, h1, h2, h3, h4, h5, h6, h7, h8, h9, h10]
    rw [hb]
    exact srmBandIndex_le_ten v1

/-- C9: `srmToColor` realizes the ascending first-match-wins threshold
list (its output is the swatch at the band index), each boundary value
maps to the swatch of its own branch, and the band index is monotone in
the color value. -/
theorem srm_swatch_mapping_correct :
    (∀ s : ℚ, srmToColor s = srmSwatches.getD (srmBandIndex s) "#F8F753") ∧
    (srmToColor 2 = "#F8F753" ∧ srmToColor 3 = "#F6F513" ∧
      srmToColor 4 = "#ECE61A" ∧ srmToColor 6 = "#D5BC26" ∧
      srmToColor 9 = "#BF923B" ∧ srmToColor 12 = "#BF813A" ∧
      srmToColor 15 = "#BC6733" ∧ srmToColor 20 = "#8D4C32" ∧
      srmToColor 24 = "#5D341A" ∧ srmToColor 30 = "#261716") ∧
    (∀ v1 v2 : ℚ, v1 < v2 → srmBandIndex v1 ≤ srmBandIndex v2) :=
  ⟨srmToColor_eq_getD, by decide, srmBandIndex_mono⟩

/-- Witness for C9: a value in the pale band has a band index at most
that of a value in the dark band. -/
theorem srm_swatch_mapping_correct_witness :
    srmBandIndex 5 ≤ srmBandIndex 25 :=
  srm_swatch_mapping_correct.2.2 5 25 (by norm_num)

/-- C3 counterexample: a whirlpool addition whose recorded temperature is
0 degrees F is treated by the code as unspecified (JavaScript falsy), so
it is scaled by the hot factor 0.5, while the claim as stated assigns it
the cold factor 0.05. -/
theorem bitterness_claim_counterexample :
    calculateIBU [whirlpoolHopZeroTemp] 1 1
      ≠ some (specHopContributionClaim whirlpoolHopZeroTemp 1 1) := by
  have hW : 0 < 1 - Real.exp (-(4 / 5) : ℝ) := by
    have hlt : Real.exp (-(4 / 5) : ℝ) < 1 := by
      rw [Real.exp_lt_one_iff]
      norm_num
    linarith
  rw [calculateIBU_eq_some_sum _ _ _ one_ne_zero]
  simp only [List.map_cons, List.map_nil, List.sum_cons, List.sum_nil, add_zero,
    Option.some_inj, hopIBUval_eq_amended]
  intro hEq
  norm_num [specHopContributionAmended, specHopContributionClaim,
    whirlpoolHopZeroTemp, Real.rpow_zero] at hEq
  nlinarith [hW]

/-- C3 amended: for every hop schedule, gravity and positive volume, the
total bitterness is the sum over additions of the specified per-addition
formula, with the whirlpool temperature default of 200 degrees F applied
both when the field is absent and when it records 0 (JavaScript falsy). -/
theorem bitterness_engine_amended (hops : List HopAddition) (og v : ℝ)
    (hv : 0 < v) :
    calculateIBU hops og v
      = some ((hops.map (fun h => specHopContributionAmended h og v)).sum) := by
  rw [calculateIBU_eq_some_sum hops og v (ne_of_gt hv)]
  simp only [hopIBUval_eq_amended]

/-- Witness for C3 amended: one boil addition at 1.05 gravity in 5.5
gallons. -/
theorem bitterness_engine_amended_witness :
    (0 : ℝ) < 5.5 ∧
    calculateIBU [boilHopSample] 1.05 5.5
      = some (specHopContributionAmended boilHopSample 1.05 5.5) := by
  refine ⟨by norm_num, ?_⟩
  rw [bitterness_engine_amended [boilHopSample] 1.05 5.5 (by norm_num)]
  simp

/-- C1 counterexample: at batch volume 0 the Color Engine and the
Bitterness Engine divide by zero and return a non-finite number, not the
zero sentinel the claim asserts. -/
theorem failure_semantics_counterexample :
    calculateSRM sampleGrainsR 0 ≠ some 0 ∧
    calculateIBU [boilHopSample] 1.05 0 ≠ some 0 := by
  constructor
  · have h : calculateSRM sampleGrainsR 0 = none := by
      simp [calculateSRM, jsDiv]
    rw [h]
    simp
  · have h : calculateIBU [boilHopSample] 1.05 0 = none := by
      simp [calculateIBU, hopIBU, jsDiv, boilHopSample]
    rw [h]
    simp

/-- C1 amended: the guarded engines do return sentinels (gravity points 0
for nonpositive volume, water profile unchanged for nonpositive volume,
bitterness 0 for an empty schedule, gravity points 0 for an empty grain
bill), but the Color and Bitterness Engines have no volume guard: at
volume 0 they produce a non-finite value (modelled `none`), not zero. -/
theorem failure_semantics_amended :
    (∀ (grains : List (Fermentable ℚ)) (e v : ℚ), v ≤ 0 →
        (calculateGravity grains e v).points = 0) ∧
    (∀ e v : ℚ, (calculateGravity [] e v).points = 0) ∧
    (∀ (src : WaterProfile) (salts : SaltAdditions) (v : ℚ), v ≤ 0 →
        calculateWaterChemistry src salts v = src) ∧
    (∀ og v : ℝ, calculateIBU [] og v = some 0) ∧
    (∀ grains : List (Fermentable ℝ), calculateSRM grains 0 = none) ∧
    (∀ (hop : HopAddition) (og : ℝ), hop.hopType ≠ HopType.dry →
        calculateIBU [hop] og 0 = none) := by
  refine ⟨fun grains e v hv => ?_, fun e v => ?_, fun src salts v hv => ?_,
    fun og v => rfl, fun grains => ?_, fun hop og hne => ?_⟩
  · simp [calculateGravity, not_lt.mpr hv]
  · simp [calculateGravity, totalGrainPoints]
  · simp [calculateWaterChemistry, hv]
  · simp [calculateSRM, jsDiv]
  · simp [calculateIBU, hopIBU, jsDiv, hne]

/-- Witness for C1 amended: negative volume gravity, zero volume water,
zero volume color. -/
theorem failure_semantics_amended_witness :
    (-1 : ℚ) ≤ 0 ∧
    (calculateGravity sampleGrains 72 (-1)).points = 0 ∧
    calculateWaterChemistry sampleWater sampleSalts 0 = sampleWater ∧
    calculateSRM sampleGrainsR 0 = none :=
  ⟨by norm_num,
    failure_semantics_amended.1 sampleGrains 72 (-1) (by norm_num),
    failure_semantics_amended.2.2.1 sampleWater sampleSalts 0 le_rfl,
    failure_semantics_amended.2.2.2.2.1 sampleGrainsR⟩
